import Mathlib

/-!
Verification model of the Watt's Up usage-ledger logic
(src/WattsUpApp.js).  JavaScript numbers are idealised as exact
rationals extended with NaN (finite doubles become exact rationals;
Infinity never arises from the values the app computes).  React state
plumbing and rendering are out of scope, so each handler and effect is
modelled as a pure function from its inputs and the current usage list
to the new state.
-/

/-- A JavaScript number: NaN, or an exact rational. -/
inductive JSNum where
  | nan : JSNum
  | num : ℚ → JSNum
deriving DecidableEq

namespace JSNum

/-- JS addition: NaN propagates through arithmetic. -/
def add : JSNum → JSNum → JSNum
  | num a, num b => num (a + b)
  | _, _ => nan

/-- JS multiplication: NaN propagates through arithmetic. -/
def mul : JSNum → JSNum → JSNum
  | num a, num b => num (a * b)
  | _, _ => nan

/-- JS division: NaN propagates.  The app divides only by the nonzero
constants 1000 and 30, so division by zero never occurs in any use. -/
def div : JSNum → JSNum → JSNum
  | num a, num b => num (a / b)
  | _, _ => nan

instance : Add JSNum := ⟨add⟩
instance : Mul JSNum := ⟨mul⟩
instance : Div JSNum := ⟨div⟩
instance : Zero JSNum := ⟨num 0⟩

/-- JS comparison a <= b: false whenever either side is NaN. -/
def jsLe : JSNum → JSNum → Bool
  | num a, num b => decide (a ≤ b)
  | _, _ => false

/-- Whether the value is NaN. -/
def isNaN : JSNum → Bool
  | nan => true
  | num _ => false

@[simp] theorem num_add_num (a b : ℚ) : num a + num b = num (a + b) := rfl

@[simp] theorem num_mul_num (a b : ℚ) : num a * num b = num (a * b) := rfl

@[simp] theorem num_div_num (a b : ℚ) : num a / num b = num (a / b) := rfl

@[simp] theorem nan_add (x : JSNum) : nan + x = nan := by cases x <;> rfl

@[simp] theorem add_nan (x : JSNum) : x + nan = nan := by cases x <;> rfl

@[simp] theorem nan_mul (x : JSNum) : nan * x = nan := by cases x <;> rfl

@[simp] theorem mul_nan (x : JSNum) : x * nan = nan := by cases x <;> rfl

@[simp] theorem nan_div (x : JSNum) : nan / x = nan := by cases x <;> rfl

@[simp] theorem div_nan (x : JSNum) : x / nan = nan := by cases x <;> rfl

@[simp] theorem zero_def : (0 : JSNum) = num 0 := rfl

@[simp] theorem num_zero_add (x : JSNum) : num 0 + x = x := by
  cases x <;> simp

@[simp] theorem add_num_zero (x : JSNum) : x + num 0 = x := by
  cases x <;> simp

instance : AddCommMonoid JSNum where
  add_assoc a b c := by
    cases a <;> cases b <;> cases c <;> simp [add_assoc]
  zero_add a := by cases a <;> simp
  add_zero a := by cases a <;> simp
  add_comm a b := by cases a <;> cases b <;> simp [add_comm]
  nsmul := nsmulRec

end JSNum

/-- A value read from a form field, as it parses: either not a number at
all, or a plain signed decimal numeral (digits, optional fraction) with
rational value q.  On such a numeral, JS parseFloat reads q and JS
parseInt with radix 10 reads the integer part, truncating toward zero.
Programmatically assigned numbers (the initial 150 and 24, the catalog
wattages, the post-append reset to 24) are coerced to exactly such
numerals, so they are also decimal values. -/
inductive FormInput where
  | invalid : FormInput
  | decimal : ℚ → FormInput
deriving DecidableEq

/-- Truncation of a rational toward zero, the integer that parseInt
returns on a decimal numeral whose parseFloat value is q. -/
def ratTrunc (q : ℚ) : ℤ := Int.tdiv q.num (q.den : ℤ)

/-- JS parseFloat on a form value: NaN when it is not a numeral. -/
def parseFloat : FormInput → JSNum
  | .invalid => .nan
  | .decimal q => .num q

/-- JS parseInt(v, 10) on a form value: NaN when it is not a numeral,
otherwise the base-10 integer part (truncation toward zero). -/
def parseInt10 : FormInput → JSNum
  | .invalid => .nan
  | .decimal q => .num (ratTrunc q)

/-- One appliance usage record, as built by handleAddAppliance
(src/WattsUpApp.js lines 121-127).  The id is a JS timestamp
(an integral number of milliseconds); watts, hours and kWh are JS
numbers. -/
structure Entry where
  id : ℚ
  name : String
  watts : JSNum
  hours : JSNum
  kWh : JSNum
deriving DecidableEq

/-- U.S. average daily household electricity consumption in kWh
(src/WattsUpApp.js line 48). -/
def US_AVERAGE_KWH : ℚ := 30

/-- The initial value of the hours form field (src/WattsUpApp.js
line 71): useState(24). -/
def initialNewHours : FormInput := .decimal 24

/-- handleAddAppliance (src/WattsUpApp.js lines 119-130): builds the new
item with id Date.now() (passed here as the parameter now), watts from
parseInt(newWatts, 10), hours from parseFloat(newHours) and kWh computed
once as parseInt(newWatts, 10) * parseFloat(newHours) / 1000, appends it
to usageItems, and resets the hours field to 24.  Returns the new
(usageItems, newHours) state pair. -/
def handleAddAppliance (now : ℚ) (newAppliance : String)
    (newWatts newHours : FormInput) (usageItems : List Entry) :
    List Entry × FormInput :=
  let newItem : Entry :=
    { id := now
      name := newAppliance
      watts := parseInt10 newWatts
      hours := parseFloat newHours
      kWh := parseInt10 newWatts * parseFloat newHours / JSNum.num 1000 }
  (usageItems ++ [newItem], FormInput.decimal 24)

/-- handleDeleteItem (src/WattsUpApp.js lines 148-150):
usageItems.filter(item => item.id !== id). -/
def handleDeleteItem (id : ℚ) (usageItems : List Entry) : List Entry :=
  usageItems.filter (fun item => decide (item.id ≠ id))

/-- The aggregate effect (src/WattsUpApp.js lines 101-112): the total is
usageItems.reduce((sum, item) => sum + (item.watts * item.hours) / 1000, 0).
Note it recomputes watts * hours / 1000 for each item rather than
summing the stored kWh field. -/
def totalKwh (usageItems : List Entry) : JSNum :=
  usageItems.foldl
    (fun sum item => sum + item.watts * item.hours / JSNum.num 1000)
    (JSNum.num 0)

/-- The comparison percentage set by the same effect
(src/WattsUpApp.js line 109): (total / US_AVERAGE_KWH) * 100. -/
def comparisonPercentage (usageItems : List Entry) : JSNum :=
  totalKwh usageItems / JSNum.num US_AVERAGE_KWH * JSNum.num 100

/-- getEfficiencyClass (src/WattsUpApp.js lines 176-181): maps the
comparison percentage to a CSS class through the thresholds
<= 50, <= 80, <= 120. -/
def getEfficiencyClass (comparisonPercentage : JSNum) : String :=
  if JSNum.jsLe comparisonPercentage (JSNum.num 50) then "text-green-500"
  else if JSNum.jsLe comparisonPercentage (JSNum.num 80) then "text-green-400"
  else if JSNum.jsLe comparisonPercentage (JSNum.num 120) then "text-yellow-500"
  else "text-red-500"

/-- The four efficiency tiers named by the spec, in the order the
insights rendering distinguishes them. -/
inductive Band where
  | EXCELLENT : Band
  | GOOD : Band
  | AVERAGE : Band
  | ABOVE_AVERAGE : Band
deriving DecidableEq

/-- The band chosen by the insights rendering
(src/WattsUpApp.js lines 393-409): the same three <= 50 / <= 80 / <= 120
threshold tests select which of the four messages is shown. -/
def insightsBand (comparisonPercentage : JSNum) : Band :=
  if JSNum.jsLe comparisonPercentage (JSNum.num 50) then .EXCELLENT
  else if JSNum.jsLe comparisonPercentage (JSNum.num 80) then .GOOD
  else if JSNum.jsLe comparisonPercentage (JSNum.num 120) then .AVERAGE
  else .ABOVE_AVERAGE

/-- The CSS class getEfficiencyClass assigns to each band. -/
def bandClass : Band → String
  | .EXCELLENT => "text-green-500"
  | .GOOD => "text-green-400"
  | .AVERAGE => "text-yellow-500"
  | .ABOVE_AVERAGE => "text-red-500"

/-- A JSON value, as produced by JSON.stringify and consumed by
JSON.parse; enough of JSON for the persisted entry list. -/
inductive Json where
  | null : Json
  | jnum : ℚ → Json
  | jstr : String → Json
  | jarr : List Json → Json
  | jobj : List (String × Json) → Json

/-- What JSON.stringify writes for a JS number field: NaN serialises as
null, a finite number as itself. -/
def jsToJson : JSNum → Json
  | .nan => .null
  | .num q => .jnum q

/-- Reading a JS number back from a parsed JSON field.  A JSON number is
a finite JS number; null (what NaN was stringified to) and every other
shape are not numbers, so reading them back does not restore a JS
number. -/
def jsOfJson : Json → Option JSNum
  | .jnum q => some (.num q)
  | _ => none

/-- JSON.stringify of one usage item: an object whose fields appear in
the insertion order of handleAddAppliance (id, name, watts, hours, kWh). -/
def encodeEntry (e : Entry) : Json :=
  .jobj [("id", .jnum e.id), ("name", .jstr e.name),
         ("watts", jsToJson e.watts), ("hours", jsToJson e.hours),
         ("kWh", jsToJson e.kWh)]

/-- Reading one usage item back from parsed JSON.  The source performs
no explicit decoding (setUsageItems receives the parsed value as is);
this function records the shape the rest of the program reads from each
item: the five fields written by encodeEntry, with numeric id, watts,
hours and kWh and a string name. -/
def decodeEntry : Json → Option Entry
  | .jobj [(k1, .jnum i), (k2, .jstr n), (k3, w), (k4, h), (k5, k)] =>
    if k1 = "id" ∧ k2 = "name" ∧ k3 = "watts" ∧ k4 = "hours" ∧ k5 = "kWh" then
      match jsOfJson w, jsOfJson h, jsOfJson k with
      | some wv, some hv, some kv =>
        some { id := i, name := n, watts := wv, hours := hv, kWh := kv }
      | _, _, _ => none
    else none
  | _ => none

/-- Reading a list of usage items back, element by element. -/
def decodeEntryList : List Json → Option (List Entry)
  | [] => some []
  | j :: rest =>
    match decodeEntry j, decodeEntryList rest with
    | some e, some es => some (e :: es)
    | _, _ => none

/-- Reading the whole persisted value back: it must be a JSON array of
usage items. -/
def decodeEntries : Json → Option (List Entry)
  | .jarr xs => decodeEntryList xs
  | _ => none

/-- The value stored under the wattsUpData key, as the load effect sees
it: absent covers getItem returning null (and the falsy empty string);
malformed is a present string that is not valid JSON; json v is a
present string that parses to the JSON value v. -/
inductive StoredData where
  | absent : StoredData
  | malformed : StoredData
  | json : Json → StoredData

/-- saveData (src/WattsUpApp.js lines 163-168): writes
JSON.stringify(usageItems) under the wattsUpData key.  The saved
indicator and its timer are presentation state, out of scope. -/
def saveData (usageItems : List Entry) : StoredData :=
  .json (.jarr (usageItems.map encodeEntry))

/-- The mount-time load effect (src/WattsUpApp.js lines 88-95): reads
the stored value; a falsy result leaves the initial empty list; a
present value goes through JSON.parse, which throws on malformed input —
the effect has no try/catch, so the exception escapes, modelled as
Except.error "SyntaxError".  A parsed value is installed as the usage
list via the entry reading that JS dynamic typing leaves implicit; a
parsed value of a different shape is installed as is and makes the
aggregate effect's reduce throw, modelled as Except.error "TypeError". -/
def loadOnMount (savedData : StoredData) : Except String (List Entry) :=
  match savedData with
  | .absent => .ok []
  | .malformed => .error "SyntaxError"
  | .json v =>
    match decodeEntries v with
    | some items => .ok items
    | none => .error "TypeError"

/-- An entry whose numeric fields are all finite (non-NaN), as every
entry satisfying the spec's data model is. -/
def entryFinite (e : Entry) : Prop :=
  e.watts.isNaN = false ∧ e.hours.isNaN = false ∧ e.kWh.isNaN = false

instance (e : Entry) : Decidable (entryFinite e) := by
  unfold entryFinite; infer_instance

/-- The contribution one item makes to the reduce in the aggregate
effect: (item.watts * item.hours) / 1000. -/
def kwhTerm (item : Entry) : JSNum :=
  item.watts * item.hours / JSNum.num 1000

theorem foldl_add_eq (f : Entry → JSNum) (a : JSNum) (L : List Entry) :
    L.foldl (fun s i => s + f i) a = a + (L.map f).sum := by
  induction L generalizing a with
  | nil => simp
  | cons x t ih => simp [List.foldl_cons, ih, add_assoc]

theorem totalKwh_eq_sum (L : List Entry) :
    totalKwh L = (L.map kwhTerm).sum := by
  have h := foldl_add_eq kwhTerm (JSNum.num 0) L
  simpa [totalKwh, kwhTerm] using h

theorem totalKwh_cons (a : Entry) (l : List Entry) :
    totalKwh (a :: l) = kwhTerm a + totalKwh l := by
  rw [totalKwh_eq_sum, totalKwh_eq_sum]; simp

theorem delete_not_mem (i : ℚ) (L : List Entry)
    (hni : i ∉ L.map Entry.id) : handleDeleteItem i L = L := by
  unfold handleDeleteItem
  apply List.filter_eq_self.mpr
  intro a ha
  simp only [decide_eq_true_eq]
  intro hcontra
  exact hni (hcontra ▸ List.mem_map_of_mem Entry.id ha)

theorem delete_present (i : ℚ) (e : Entry) :
    ∀ L : List Entry, (L.map Entry.id).Nodup → e ∈ L → e.id = i →
      handleDeleteItem i L = L.erase e ∧
      totalKwh (handleDeleteItem i L) + kwhTerm e = totalKwh L := by
  intro L
  induction L with
  | nil => intro _ he _; cases he
  | cons a t ih =>
    intro hnd he hei
    rw [List.map_cons, List.nodup_cons] at hnd
    obtain ⟨ha_not, hnd_t⟩ := hnd
    by_cases hai : a.id = i
    · have hea : e = a := by
        rcases List.mem_cons.mp he with rfl | het
        · rfl
        · have hmem := List.mem_map_of_mem Entry.id het
          rw [hei, ← hai] at hmem
          exact absurd hmem ha_not
      subst hea
      have hn : i ∉ t.map Entry.id := by rw [← hai]; exact ha_not
      have ht := delete_not_mem i t hn
      have hfil : handleDeleteItem i (e :: t) = t := by
        simp only [handleDeleteItem] at ht ⊢
        rw [List.filter_cons]
        simp [hai, ht]
        intro b hb hbid
        exact hn (hbid ▸ List.mem_map_of_mem Entry.id hb)
      constructor
      · rw [hfil, List.erase_cons_head]
      · rw [hfil, totalKwh_cons, add_comm]
    · have hne_ea : e ≠ a := fun hcon => hai (hcon ▸ hei)
      have het : e ∈ t := by
        rcases List.mem_cons.mp he with rfl | hmem
        · exact absurd rfl hne_ea
        · exact hmem
      obtain ⟨ih1, ih2⟩ := ih hnd_t het hei
      have hfil : handleDeleteItem i (a :: t) = a :: handleDeleteItem i t := by
        simp only [handleDeleteItem]
        rw [List.filter_cons]
        simp [hai]
      constructor
      · rw [hfil, ih1]
        exact (List.erase_cons_tail (by simpa using hne_ea.symm)).symm
      · rw [hfil, totalKwh_cons, totalKwh_cons, add_assoc, ih2]

/-- C2: totalKwh of a ledger is 0 when it is empty, equals the sum of
the stored entries' kWh values for every ledger whose entries satisfy
the creation invariant kWh = watts * hours / 1000 (the aggregate effect
recomputes watts * hours / 1000 per item rather than reading the stored
field, so the invariant bridges the two), and is invariant under any
reordering of the entries. -/
theorem C2_totalKwh_sum :
    totalKwh [] = JSNum.num 0 ∧
    (∀ L : List Entry,
      (∀ e ∈ L, e.kWh = e.watts * e.hours / JSNum.num 1000) →
      totalKwh L = (L.map Entry.kWh).sum) ∧
    (∀ L L₂ : List Entry, L.Perm L₂ → totalKwh L = totalKwh L₂) := by
  refine ⟨rfl, ?_, ?_⟩
  · intro L hinv
    rw [totalKwh_eq_sum]
    have hmap : L.map kwhTerm = L.map Entry.kWh :=
      List.map_congr_left fun e he => by rw [kwhTerm, hinv e he]
    rw [hmap]
  · intro L L₂ hp
    rw [totalKwh_eq_sum, totalKwh_eq_sum]
    exact (hp.map kwhTerm).sum_eq

/-- Witness for C2: a concrete one-entry ledger satisfying the creation
invariant has totalKwh equal to the sum of its kWh values, and swapping
a concrete two-entry ledger leaves totalKwh unchanged. -/
theorem C2_totalKwh_sum_witness :
    totalKwh [{ id := 1, name := "Microwave", watts := JSNum.num 1000,
                hours := JSNum.num 2, kWh := JSNum.num (1000 * 2 / 1000) }] =
      ([{ id := 1, name := "Microwave", watts := JSNum.num 1000,
          hours := JSNum.num 2,
          kWh := JSNum.num (1000 * 2 / 1000) }].map Entry.kWh).sum ∧
    totalKwh [{ id := 1, name := "TV", watts := JSNum.num 100,
                hours := JSNum.num 2, kWh := JSNum.num 7 },
              { id := 2, name := "Dryer", watts := JSNum.num 3000,
                hours := JSNum.num 1, kWh := JSNum.num 3 }] =
      totalKwh [{ id := 2, name := "Dryer", watts := JSNum.num 3000,
                  hours := JSNum.num 1, kWh := JSNum.num 3 },
                { id := 1, name := "TV", watts := JSNum.num 100,
                  hours := JSNum.num 2, kWh := JSNum.num 7 }] :=
  ⟨C2_totalKwh_sum.2.1 _ (by
      intro e he
      rw [List.mem_singleton] at he
      subst he
      rfl),
   C2_totalKwh_sum.2.2 _ _ (List.Perm.swap _ _ [])⟩

/-- C5: removing an id not present in the ledger is a no-op that leaves
the entry sequence and totalKwh unchanged; when an entry with the id is
present (ids being distinct), handleDeleteItem removes exactly that
entry and totalKwh afterwards excludes exactly its contribution. -/
theorem C5_remove_spec (i : ℚ) (L : List Entry) :
    (i ∉ L.map Entry.id →
      handleDeleteItem i L = L ∧
      totalKwh (handleDeleteItem i L) = totalKwh L) ∧
    ((L.map Entry.id).Nodup → ∀ e ∈ L, e.id = i →
      handleDeleteItem i L = L.erase e ∧
      totalKwh (handleDeleteItem i L) + kwhTerm e = totalKwh L) := by
  constructor
  · intro hni
    have h := delete_not_mem i L hni
    exact ⟨h, by rw [h]⟩
  · intro hnd e he hei
    exact delete_present i e L hnd he hei

/-- Witness for C5: deleting the absent id 99 from a concrete two-entry
ledger is a no-op, and deleting the present id 1 removes exactly the
entry with that id and subtracts exactly its contribution. -/
theorem C5_remove_witness :
    handleDeleteItem 99
        [{ id := 1, name := "TV", watts := JSNum.num 100,
           hours := JSNum.num 2, kWh := JSNum.num 7 },
         { id := 2, name := "Laptop", watts := JSNum.num 50,
           hours := JSNum.num 4, kWh := JSNum.num 3 }] =
      [{ id := 1, name := "TV", watts := JSNum.num 100,
         hours := JSNum.num 2, kWh := JSNum.num 7 },
       { id := 2, name := "Laptop", watts := JSNum.num 50,
         hours := JSNum.num 4, kWh := JSNum.num 3 }] ∧
    handleDeleteItem 1
        [{ id := 1, name := "TV", watts := JSNum.num 100,
           hours := JSNum.num 2, kWh := JSNum.num 7 },
         { id := 2, name := "Laptop", watts := JSNum.num 50,
           hours := JSNum.num 4, kWh := JSNum.num 3 }] =
      ([{ id := 1, name := "TV", watts := JSNum.num 100,
          hours := JSNum.num 2, kWh := JSNum.num 7 },
        { id := 2, name := "Laptop", watts := JSNum.num 50,
          hours := JSNum.num 4, kWh := JSNum.num 3 }].erase
        { id := 1, name := "TV", watts := JSNum.num 100,
          hours := JSNum.num 2, kWh := JSNum.num 7 }) ∧
    totalKwh (handleDeleteItem 1
        [{ id := 1, name := "TV", watts := JSNum.num 100,
           hours := JSNum.num 2, kWh := JSNum.num 7 },
         { id := 2, name := "Laptop", watts := JSNum.num 50,
           hours := JSNum.num 4, kWh := JSNum.num 3 }]) +
      kwhTerm { id := 1, name := "TV", watts := JSNum.num 100,
                hours := JSNum.num 2, kWh := JSNum.num 7 } =
      totalKwh [{ id := 1, name := "TV", watts := JSNum.num 100,
                  hours := JSNum.num 2, kWh := JSNum.num 7 },
                { id := 2, name := "Laptop", watts := JSNum.num 50,
                  hours := JSNum.num 4, kWh := JSNum.num 3 }] :=
  ⟨((C5_remove_spec 99 _).1 (by decide)).1,
   ((C5_remove_spec 1 _).2 (by decide) _
      (List.mem_cons_self _ _) rfl).1,
   ((C5_remove_spec 1 _).2 (by decide) _
      (List.mem_cons_self _ _) rfl).2⟩

/-- C7: the comparison percentage is totalKwh / US_AVERAGE_KWH * 100,
where US_AVERAGE_KWH is the fixed nonzero constant 30, and it is 0 for
the empty ledger. -/
theorem C7_comparisonPercentage :
    (∀ L : List Entry, comparisonPercentage L =
        totalKwh L / JSNum.num US_AVERAGE_KWH * JSNum.num 100) ∧
    US_AVERAGE_KWH = 30 ∧ US_AVERAGE_KWH ≠ 0 ∧
    comparisonPercentage [] = JSNum.num 0 := by
  refine ⟨fun L => rfl, rfl, by norm_num [US_AVERAGE_KWH], ?_⟩
  show totalKwh [] / JSNum.num US_AVERAGE_KWH * JSNum.num 100 = JSNum.num 0
  have h0 : totalKwh [] = JSNum.num 0 := rfl
  rw [h0]
  simp only [JSNum.num_div_num, JSNum.num_mul_num, JSNum.num.injEq]
  norm_num [US_AVERAGE_KWH]

/-- The rational 3/2, built in normal form so that its numerator and
denominator evaluate definitionally; it models the non-integer watts
input 1.5. -/
def threeHalves : ℚ := Rat.mk' 3 2 (by decide) (by decide)

theorem threeHalves_eq : threeHalves = 3 / 2 := by
  rw [threeHalves, Rat.mk'_eq_divInt, Rat.divInt_eq_div]
  norm_num

theorem ratTrunc_threeHalves : ratTrunc threeHalves = 1 := by decide

theorem ratTrunc_intCast (wi : ℤ) : ratTrunc (wi : ℚ) = wi := by
  simp [ratTrunc, Rat.num_intCast, Rat.den_intCast, Int.tdiv_one]

/-- C1 counterexample: appending with the numeric but non-integer watts
input 3/2 and hours 2 stores kWh = 1 * 2 / 1000 (watts truncated by
parseInt), which differs from watts * hours / 1000 = (3/2) * 2 / 1000. -/
theorem C1_counterexample :
    ((handleAddAppliance 1715000000000 "Other" (FormInput.decimal threeHalves)
        (FormInput.decimal 2) []).1.map Entry.kWh)
      = [JSNum.num ((1 : ℚ) * 2 / 1000)] ∧
    JSNum.num ((1 : ℚ) * 2 / 1000) ≠ JSNum.num (threeHalves * 2 / 1000) := by
  constructor
  · simp only [handleAddAppliance, parseInt10, parseFloat, List.nil_append,
      List.map_cons, List.map_nil, JSNum.num_mul_num, JSNum.num_div_num,
      ratTrunc_threeHalves]
    norm_num
  · simp only [ne_eq, JSNum.num.injEq, threeHalves_eq]
    norm_num

/-- C1 amended: every append with numeric watts and hours inputs stores,
at creation time, an entry whose kWh field equals
trunc(watts) * hours / 1000, where trunc is the base-10 integer
truncation parseInt applies to the watts input; when the watts input is
an integer this equals watts * hours / 1000 exactly. -/
theorem C1_kwh_creation :
    (∀ (now : ℚ) (nm : String) (w h : ℚ) (L : List Entry),
      (handleAddAppliance now nm (.decimal w) (.decimal h) L).1 =
        L ++ [{ id := now, name := nm, watts := JSNum.num ((ratTrunc w : ℚ)),
                hours := JSNum.num h,
                kWh := JSNum.num ((ratTrunc w : ℚ) * h / 1000) }]) ∧
    (∀ (wi : ℤ) (h : ℚ),
      ((ratTrunc (wi : ℚ) : ℚ) * h / 1000) = (wi : ℚ) * h / 1000) := by
  constructor
  · intro now nm w h L
    simp [handleAddAppliance, parseInt10, parseFloat]
  · intro wi h
    rw [ratTrunc_intCast]

/-- C10: append truncates the watts input to an integer (base-10
parseInt, truncation toward zero) before storing it and before
computing kWh, so both the stored watts and the stored kWh come from
the truncated value; at watts input 3/2 and hours 2 the truncated kWh
differs from the one the untruncated watts would give. -/
theorem C10_watts_truncated :
    (∀ (now : ℚ) (nm : String) (w h : ℚ) (L : List Entry),
      ((handleAddAppliance now nm (.decimal w) (.decimal h) L).1.map Entry.watts =
         L.map Entry.watts ++ [JSNum.num ((ratTrunc w : ℚ))]) ∧
      ((handleAddAppliance now nm (.decimal w) (.decimal h) L).1.map Entry.kWh =
         L.map Entry.kWh ++ [JSNum.num ((ratTrunc w : ℚ) * h / 1000)])) ∧
    ratTrunc threeHalves = 1 ∧
    JSNum.num ((ratTrunc threeHalves : ℚ) * 2 / 1000) ≠
      JSNum.num (threeHalves * 2 / 1000) := by
  refine ⟨?_, ratTrunc_threeHalves, ?_⟩
  · intro now nm w h L
    constructor <;> simp [handleAddAppliance, parseInt10, parseFloat]
  · rw [ratTrunc_threeHalves, threeHalves_eq]
    simp only [ne_eq, JSNum.num.injEq]
    norm_num

/-- C6: the efficiency classification is a pure function of the
percentage with thresholds at 50, 80 and 120: p <= 50 is EXCELLENT,
p <= 80 is GOOD, p <= 120 is AVERAGE, anything larger ABOVE_AVERAGE —
in particular exactly 50 is EXCELLENT, exactly 80 is GOOD and exactly
120 is AVERAGE — and the CSS class getEfficiencyClass picks agrees with
the band the insights rendering picks on every input. -/
theorem C6_band_thresholds :
    (∀ p : ℚ, insightsBand (JSNum.num p) =
      if p ≤ 50 then Band.EXCELLENT
      else if p ≤ 80 then Band.GOOD
      else if p ≤ 120 then Band.AVERAGE
      else Band.ABOVE_AVERAGE) ∧
    insightsBand (JSNum.num 50) = Band.EXCELLENT ∧
    insightsBand (JSNum.num 80) = Band.GOOD ∧
    insightsBand (JSNum.num 120) = Band.AVERAGE ∧
    (∀ x : JSNum, getEfficiencyClass x = bandClass (insightsBand x)) := by
  have hmain : ∀ p : ℚ, insightsBand (JSNum.num p) =
      if p ≤ 50 then Band.EXCELLENT
      else if p ≤ 80 then Band.GOOD
      else if p ≤ 120 then Band.AVERAGE
      else Band.ABOVE_AVERAGE := by
    intro p
    by_cases h1 : p ≤ 50 <;> by_cases h2 : p ≤ 80 <;> by_cases h3 : p ≤ 120 <;>
      simp [insightsBand, JSNum.jsLe, h1, h2, h3]
  refine ⟨hmain, ?_, ?_, ?_, ?_⟩
  · rw [hmain]; norm_num
  · rw [hmain]; norm_num
  · rw [hmain]; norm_num
  · intro x
    cases x with
    | nan => rfl
    | num p =>
      by_cases h1 : p ≤ 50 <;> by_cases h2 : p ≤ 80 <;> by_cases h3 : p ≤ 120 <;>
        simp [getEfficiencyClass, insightsBand, bandClass, JSNum.jsLe, h1, h2, h3]

/-- C8 counterexample: appending while the hours input does not parse to
a number stores an entry whose hours field is NaN, not the fallback 24
the claim describes. -/
theorem C8_counterexample :
    ((handleAddAppliance 1715000000000 "TV" (FormInput.decimal 100)
        FormInput.invalid []).1.map Entry.hours) = [JSNum.nan] ∧
    JSNum.nan ≠ JSNum.num 24 := by
  exact ⟨rfl, by simp⟩

/-- C8 amended: when the hours input parses to a non-number, the
appended entry's hours and kWh are NaN — handleAddAppliance applies no
fallback.  The fixed value 24 is only the hours form field's state: its
initial value and the value the field is reset to after each append, so
an untouched hours field parses to 24. -/
theorem C8_invalid_hours :
    (∀ (now : ℚ) (nm : String) (w : FormInput) (L : List Entry),
      (handleAddAppliance now nm w FormInput.invalid L).1 =
        L ++ [{ id := now, name := nm, watts := parseInt10 w,
                hours := JSNum.nan, kWh := JSNum.nan }] ∧
      (handleAddAppliance now nm w FormInput.invalid L).2 =
        FormInput.decimal 24) ∧
    initialNewHours = FormInput.decimal 24 ∧
    parseFloat initialNewHours = JSNum.num 24 := by
  refine ⟨?_, rfl, rfl⟩
  intro now nm w L
  refine ⟨?_, rfl⟩
  simp [handleAddAppliance, parseFloat]

/-- C9: the code contradicts its stated intent of unique ids — two
appends that occur in the same millisecond (equal Date.now values) both
get that timestamp as id, the resulting ledger has duplicate ids, and
deleting that id removes both entries at once. -/
theorem C9_duplicate_ids :
    (((handleAddAppliance 1715000000000 "TV" (FormInput.decimal 100)
        (FormInput.decimal 2)
        ((handleAddAppliance 1715000000000 "Laptop" (FormInput.decimal 50)
            (FormInput.decimal 3) []).1)).1).map Entry.id)
      = [1715000000000, 1715000000000] ∧
    ¬ (([(1715000000000 : ℚ), 1715000000000]).Nodup) ∧
    handleDeleteItem 1715000000000
        ((handleAddAppliance 1715000000000 "TV" (FormInput.decimal 100)
          (FormInput.decimal 2)
          ((handleAddAppliance 1715000000000 "Laptop" (FormInput.decimal 50)
              (FormInput.decimal 3) []).1)).1) = [] := by
  refine ⟨rfl, by decide, ?_⟩
  simp [handleAddAppliance, handleDeleteItem]

theorem decodeEntry_encodeEntry (e : Entry) (hf : entryFinite e) :
    decodeEntry (encodeEntry e) = some e := by
  obtain ⟨hw, hh, hk⟩ := hf
  obtain ⟨i, n, w, h, k⟩ := e
  cases w <;> cases h <;> cases k <;>
    simp_all [decodeEntry, encodeEntry, jsToJson, jsOfJson, JSNum.isNaN]

theorem decodeEntryList_encode (L : List Entry)
    (hf : ∀ e ∈ L, entryFinite e) :
    decodeEntryList (L.map encodeEntry) = some L := by
  induction L with
  | nil => rfl
  | cons a t ih =>
    have ha := decodeEntry_encodeEntry a (hf a (List.mem_cons_self a t))
    have ht := ih fun e he => hf e (List.mem_cons.mpr (Or.inr he))
    simp [decodeEntryList, ha, ht]

/-- C3: saving a ledger and loading it back restores exactly the same
entry sequence (hence the same totalKwh), for every ledger — the empty
one included — whose entries have finite numeric fields as the data
model requires. -/
theorem C3_roundtrip (L : List Entry) (hf : ∀ e ∈ L, entryFinite e) :
    loadOnMount (saveData L) = Except.ok L ∧
    ∀ L₂, loadOnMount (saveData L) = Except.ok L₂ →
      L₂ = L ∧ totalKwh L₂ = totalKwh L := by
  have h : loadOnMount (saveData L) = Except.ok L := by
    simp [loadOnMount, saveData, decodeEntries, decodeEntryList_encode L hf]
  refine ⟨h, fun L₂ h₂ => ?_⟩
  rw [h] at h₂
  obtain rfl : L = L₂ := by cases h₂; rfl
  exact ⟨rfl, rfl⟩

/-- Witness for C3: the round trip restores the empty ledger and a
concrete one-entry ledger unchanged. -/
theorem C3_roundtrip_witness :
    loadOnMount (saveData []) = Except.ok ([] : List Entry) ∧
    loadOnMount (saveData
        [{ id := 1715000000000, name := "TV", watts := JSNum.num 100,
           hours := JSNum.num 2, kWh := JSNum.num 5 }]) =
      Except.ok
        [{ id := 1715000000000, name := "TV", watts := JSNum.num 100,
           hours := JSNum.num 2, kWh := JSNum.num 5 }] :=
  ⟨(C3_roundtrip [] (by decide)).1, (C3_roundtrip _ (by decide)).1⟩

/-- C4 counterexample: on malformed persisted data the load effect does
not fall back to the empty ledger — JSON.parse throws and nothing
catches it, so the load ends in an error, not in the empty list. -/
theorem C4_counterexample :
    loadOnMount StoredData.malformed = Except.error "SyntaxError" ∧
    loadOnMount StoredData.malformed ≠ Except.ok ([] : List Entry) := by
  refine ⟨rfl, ?_⟩
  intro h
  cases h

/-- C4 amended: absent (falsy) persisted data falls back to the empty
ledger, but present malformed data raises a parse error that the load
effect does not catch, so it surfaces to the caller instead of being
recovered into an empty ledger. -/
theorem C4_load_fallback :
    loadOnMount StoredData.absent = Except.ok ([] : List Entry) ∧
    ∃ msg : String, loadOnMount StoredData.malformed = Except.error msg :=
  ⟨rfl, "SyntaxError", rfl⟩
